import Mathlib

/-
Verification of the skill-advisor routing engine
(`.opencode/scripts/skill_advisor.py`).

This file gives a shallow embedding of the scoring core of the advisor:
tokenization, stop-word filtering, synonym expansion, intent-boost
extraction, corpus matching, the two-regime confidence formula, the
uncertainty estimate, the dual-threshold gate, and the ranked output of
`analyze_request`.  Python floats are modelled as exact rationals (every
constant in the scoring tables has an exact decimal representation, and
no claim below depends on binary floating-point rounding).  `round(x, 2)`
is modelled as rounding of `x * 100` to an integer; every value this
program rounds has `x * 100` an exact integer, where all rounding
conventions agree.  The skill catalog (produced by `get_skills`, an I/O
collaborator) is passed as an explicit list of name/config pairs; Python
dict iteration over `skills.items()` is iteration over that list, and
dict-key uniqueness is an explicit hypothesis where it matters.
`sorted(..., key=..., reverse=True)` is a stable descending sort, modelled
by Mathlib's stable `List.insertionSort`.
-/

namespace SkillAdvisor

/- Core marks a few `Rat` operations irreducible, which blocks the
elaborator (not the kernel) from evaluating `decide` on concrete rational
arithmetic; restore the default transparency locally. -/
attribute [local semireducible] Rat.ofScientific Rat.add Rat.mul Rat.inv Rat.sub

/-- A character counted by the `\w` tokenizer class (the prompts and
descriptions relevant here are ASCII, where `\w` is `[a-zA-Z0-9_]`). -/
def wordChar (c : Char) : Bool := c.isAlphanum || c == '_'

/-- Maximal runs of characters satisfying `keep`, accumulator-based
(separator characters are discarded, empty runs produce nothing). -/
def splitRuns (keep : Char → Bool) : List Char → List Char → List String
  | [], acc => if acc.isEmpty then [] else [String.mk acc.reverse]
  | c :: cs, acc =>
    if keep c then splitRuns keep cs (c :: acc)
    else if acc.isEmpty then splitRuns keep cs []
    else String.mk acc.reverse :: splitRuns keep cs []

/-- `re.findall(r'\b\w+\b', s.lower())`: lower-case, then split into
maximal word-character runs. -/
def tokenize (s : String) : List String :=
  splitRuns wordChar (s.data.map Char.toLower) []

/-- First-match association-list lookup (Python dict access; the literal
tables below have pairwise-distinct keys). -/
def dictGet {α : Type} (k : String) : List (String × α) → Option α
  | [] => none
  | (k', v) :: rest => if k = k' then some v else dictGet k rest

def listStartsWith : List Char → List Char → Bool
  | [], _ => true
  | _ :: _, [] => false
  | a :: as, b :: bs => a == b && listStartsWith as bs

def containsSub (needle : List Char) : List Char → Bool
  | [] => listStartsWith needle []
  | c :: t => listStartsWith needle (c :: t) || containsSub needle t

/-- Python's substring test `needle in hay`. -/
def substrB (needle hay : String) : Bool := containsSub needle.data hay.data

def STOP_WORDS : List String := [
  "a", "about", "able", "actually", "agent", "all", "also", "an", "and", "any",
  "are", "as", "at", "be", "been", "being", "but", "by", "can", "could",
  "did", "do", "does", "even", "for", "from", "get", "give", "go", "going",
  "had", "has", "have", "he", "help", "her", "him", "how", "i", "if",
  "in", "into", "is", "it", "its", "just", "let", "like", "may", "me",
  "might", "more", "most", "must", "my", "need", "no", "not", "now", "of",
  "on", "only", "or", "other", "our", "please", "really", "run", "she", "should",
  "show", "skill", "so", "some", "tell", "that", "the", "them", "then", "these",
  "they", "thing", "things", "this", "those", "to", "tool", "try", "us", "use",
  "used", "using", "very", "want", "was", "way", "we", "were", "what", "when",
  "where", "which", "who", "why", "will", "with", "work", "would", "you", "your"
]

def SYNONYM_MAP : List (String × List String) := [
  ("ast", ["treesitter", "syntax", "parse", "structure"]),
  ("codebase", ["code", "project", "repository", "source"]),
  ("functions", ["methods", "definitions", "symbols"]),
  ("classes", ["types", "definitions", "structure"]),
  ("symbols", ["definitions", "functions", "classes", "exports"]),
  ("branch", ["git", "commit", "merge", "checkout"]),
  ("commit", ["git", "version", "push", "branch", "changes"]),
  ("merge", ["git", "branch", "commit", "rebase"]),
  ("push", ["git", "commit", "remote", "branch"]),
  ("rebase", ["git", "branch", "commit", "history"]),
  ("stash", ["git", "changes", "temporary"]),
  ("worktree", ["git", "branch", "workspace", "isolation"]),
  ("git", ["commit", "branch", "version", "push", "merge", "worktree"]),
  ("pull", ["git", "fetch", "merge", "remote"]),
  ("clone", ["git", "repository", "download"]),
  ("context", ["memory", "session", "save"]),
  ("remember", ["memory", "context", "save", "store"]),
  ("save", ["context", "memory", "preserve", "store"]),
  ("recall", ["memory", "search", "find", "retrieve"]),
  ("forget", ["memory", "delete", "remove"]),
  ("checkpoint", ["memory", "save", "restore", "backup"]),
  ("history", ["memory", "context", "past", "previous"]),
  ("session", ["memory", "context", "conversation"]),
  ("preserve", ["memory", "save", "context", "store"]),
  ("store", ["memory", "save", "context", "persist"]),
  ("doc", ["documentation", "explain", "describe", "markdown"]),
  ("docs", ["documentation", "explain", "describe", "markdown"]),
  ("document", ["documentation", "markdown", "write"]),
  ("write", ["documentation", "create", "generate"]),
  ("readme", ["documentation", "markdown", "explain"]),
  ("flowchart", ["documentation", "diagram", "ascii"]),
  ("diagram", ["documentation", "flowchart", "visual"]),
  ("plan", ["spec", "architect", "design", "roadmap", "breakdown"]),
  ("spec", ["specification", "plan", "document", "folder"]),
  ("folder", ["spec", "directory", "create", "organize"]),
  ("scaffold", ["create", "generate", "new", "template"]),
  ("template", ["scaffold", "create", "generate"]),
  ("bug", ["debug", "error", "issue", "defect", "verification"]),
  ("console", ["chrome", "browser", "debug", "log"]),
  ("devtools", ["chrome", "browser", "debug", "inspect"]),
  ("network", ["chrome", "browser", "requests", "debug"]),
  ("inspect", ["chrome", "browser", "debug", "devtools"]),
  ("breakpoint", ["debug", "chrome", "devtools"]),
  ("error", ["bug", "debug", "fix", "issue"]),
  ("issue", ["bug", "debug", "error", "problem"]),
  ("find", ["search", "locate", "explore", "lookup"]),
  ("search", ["find", "locate", "explore", "query", "lookup"]),
  ("where", ["find", "search", "locate", "navigate"]),
  ("lookup", ["find", "search", "locate"]),
  ("explore", ["search", "find", "navigate", "discover"]),
  ("navigate", ["find", "search", "locate", "goto"]),
  ("locate", ["find", "search", "where"]),
  ("create", ["implement", "build", "generate", "new", "add", "scaffold"]),
  ("make", ["create", "implement", "build", "generate"]),
  ("new", ["create", "implement", "scaffold", "generate"]),
  ("add", ["create", "implement", "new", "insert"]),
  ("build", ["create", "implement", "generate"]),
  ("generate", ["create", "build", "scaffold"]),
  ("check", ["verify", "validate", "test"]),
  ("fix", ["debug", "correct", "resolve", "code", "implementation"]),
  ("refactor", ["structure", "organize", "clean", "improve", "code"]),
  ("test", ["verify", "validate", "check", "spec", "quality"]),
  ("verify", ["check", "validate", "test", "confirm"]),
  ("validate", ["check", "verify", "test"]),
  ("help", ["guide", "assist", "documentation", "explain"]),
  ("how", ["understand", "explain", "works", "meaning"]),
  ("what", ["definition", "structure", "outline", "list"]),
  ("why", ["understand", "explain", "reason", "purpose"]),
  ("explain", ["understand", "how", "works", "describe"]),
  ("understand", ["how", "explain", "learn", "works"]),
  ("works", ["how", "understand", "explain", "function"]),
  ("show", ["list", "display", "outline", "tree"]),
  ("list", ["show", "display", "enumerate"]),
  ("display", ["show", "list", "output"]),
  ("print", ["show", "display", "output"])
]

def INTENT_BOOSTERS : List (String × String × ℚ) := [
  ("checkpoint", "system-spec-kit", 0.6),
  ("context", "system-spec-kit", 0.6),
  ("forget", "system-spec-kit", 0.4),
  ("history", "system-spec-kit", 0.4),
  ("memory", "system-spec-kit", 0.8),
  ("preserve", "system-spec-kit", 0.5),
  ("recall", "system-spec-kit", 0.6),
  ("remember", "system-spec-kit", 0.6),
  ("restore", "system-spec-kit", 0.4),
  ("session", "system-spec-kit", 0.4),
  ("store", "system-spec-kit", 0.4),
  ("checklist", "system-spec-kit", 0.5),
  ("folder", "system-spec-kit", 0.4),
  ("plan", "system-spec-kit", 0.5),
  ("scaffold", "system-spec-kit", 0.4),
  ("spec", "system-spec-kit", 0.6),
  ("specification", "system-spec-kit", 0.5),
  ("speckit", "system-spec-kit", 0.8),
  ("task", "system-spec-kit", 0.3),
  ("tasks", "system-spec-kit", 0.4),
  ("git", "workflows-git", 1.0),
  ("branch", "workflows-git", 0.4),
  ("checkout", "workflows-git", 0.5),
  ("clone", "workflows-git", 0.5),
  ("commit", "workflows-git", 0.5),
  ("diff", "workflows-git", 0.5),
  ("fetch", "workflows-git", 0.4),
  ("gh", "workflows-git", 1.5),
  ("github", "workflows-git", 2.0),
  ("issue", "workflows-git", 0.8),
  ("log", "workflows-git", 0.4),
  ("merge", "workflows-git", 0.5),
  ("pr", "workflows-git", 0.8),
  ("pull", "workflows-git", 0.5),
  ("push", "workflows-git", 0.5),
  ("rebase", "workflows-git", 0.8),
  ("repo", "workflows-git", 0.6),
  ("repository", "workflows-git", 0.5),
  ("review", "workflows-git", 0.8),
  ("stash", "workflows-git", 0.5),
  ("worktree", "workflows-git", 1.2),
  ("bdg", "workflows-chrome-devtools", 1.0),
  ("breakpoint", "workflows-chrome-devtools", 0.6),
  ("browser", "workflows-chrome-devtools", 1.2),
  ("chrome", "workflows-chrome-devtools", 1.0),
  ("console", "workflows-chrome-devtools", 1.0),
  ("css", "workflows-chrome-devtools", 0.4),
  ("debug", "workflows-chrome-devtools", 0.6),
  ("debugger", "workflows-chrome-devtools", 1.0),
  ("devtools", "workflows-chrome-devtools", 1.2),
  ("dom", "workflows-chrome-devtools", 0.5),
  ("elements", "workflows-chrome-devtools", 0.5),
  ("inspect", "workflows-chrome-devtools", 1.0),
  ("network", "workflows-chrome-devtools", 0.8),
  ("performance", "workflows-chrome-devtools", 0.5),
  ("screenshot", "workflows-chrome-devtools", 0.5),
  ("ascii", "workflows-documentation", 0.4),
  ("diagram", "workflows-documentation", 0.4),
  ("document", "workflows-documentation", 0.5),
  ("documentation", "workflows-documentation", 0.6),
  ("flowchart", "workflows-documentation", 0.7),
  ("markdown", "workflows-documentation", 0.5),
  ("readme", "workflows-documentation", 0.5),
  ("template", "workflows-documentation", 0.4),
  ("bug", "workflows-code", 0.5),
  ("error", "workflows-code", 0.4),
  ("implement", "workflows-code", 0.6),
  ("refactor", "workflows-code", 0.5),
  ("verification", "workflows-code", 0.5),
  ("opencode", "workflows-code--opencode", 2.0),
  ("mcp", "workflows-code--opencode", 1.5),
  ("python", "workflows-code--opencode", 1.0),
  ("shell", "workflows-code--opencode", 1.0),
  ("bash", "workflows-code--opencode", 1.0),
  ("jsonc", "workflows-code--opencode", 1.5),
  ("shebang", "workflows-code--opencode", 1.2),
  ("snake_case", "workflows-code--opencode", 1.0),
  ("docstring", "workflows-code--opencode", 0.8),
  ("jsdoc", "workflows-code--opencode", 0.8),
  ("commonjs", "workflows-code--opencode", 1.0),
  ("require", "workflows-code--opencode", 0.6),
  ("strict", "workflows-code--opencode", 0.5),
  ("clickup", "mcp-code-mode", 2.5),
  ("cms", "mcp-code-mode", 0.5),
  ("component", "mcp-code-mode", 0.4),
  ("external", "mcp-code-mode", 0.4),
  ("figma", "mcp-code-mode", 2.5),
  ("notion", "mcp-code-mode", 2.5),
  ("page", "mcp-code-mode", 0.4),
  ("pages", "mcp-code-mode", 0.4),
  ("site", "mcp-code-mode", 0.6),
  ("sites", "mcp-code-mode", 0.6),
  ("typescript", "mcp-code-mode", 0.4),
  ("utcp", "mcp-code-mode", 0.8),
  ("webflow", "mcp-code-mode", 2.5)
]

def MULTI_SKILL_BOOSTERS : List (String × List (String × ℚ)) := [
  ("api", [("mcp-code-mode", 0.3)]),
  ("changes", [("workflows-git", 0.4), ("system-spec-kit", 0.2)]),
  ("code", [("workflows-code", 0.2), ("workflows-code--opencode", 0.1)]),
  ("context", [("system-spec-kit", 0.4)]),
  ("fix", [("workflows-code", 0.3), ("workflows-git", 0.1)]),
  ("mcp", [("mcp-code-mode", 0.3), ("workflows-code--opencode", 0.4)]),
  ("plan", [("system-spec-kit", 0.3), ("workflows-code", 0.2)]),
  ("save", [("system-spec-kit", 0.4), ("workflows-git", 0.2)]),
  ("script", [("workflows-code--opencode", 0.4)]),
  ("server", [("workflows-code--opencode", 0.3), ("mcp-code-mode", 0.2)]),
  ("session", [("system-spec-kit", 0.5)]),
  ("standards", [("workflows-code--opencode", 0.4), ("workflows-code", 0.2)]),
  ("style", [("workflows-code--opencode", 0.3), ("workflows-code", 0.2)]),
  ("test", [("workflows-code", 0.3), ("workflows-chrome-devtools", 0.2)]),
  ("update", [("mcp-code-mode", 0.3), ("workflows-git", 0.2), ("workflows-code", 0.2)])
]

/-- A skill's catalog record: its description text and weight
(`get_skills` always supplies weight `1.0`; the catalog contract requires
a positive weight). -/
structure SkillConfig where
  description : String
  weight : ℚ
deriving DecidableEq

/-- The output record built by `analyze_request` for one skill. -/
structure Recommendation where
  skill : String
  confidence : ℚ
  uncertainty : ℚ
  passes_threshold : Bool
  reason : String
deriving DecidableEq

/-- `round(q, 2)`: every value rounded by this program has `q * 100` an
exact integer, where all rounding conventions coincide. -/
def round2 (q : ℚ) : ℚ := (round (q * 100) : ℚ) / 100

/-- `calculate_confidence` (skill_advisor.py lines 375-422). -/
def calculate_confidence (score : ℚ) (has_intent_boost : Bool) (weight : ℚ) : ℚ :=
  let confidence :=
    if has_intent_boost then min (0.50 + score * 0.15) 0.95
    else min (0.25 + score * 0.15) 0.95
  min (confidence * weight) 1.0

/-- `calculate_uncertainty` (skill_advisor.py lines 425-472). -/
def calculate_uncertainty (num_matches : ℕ) (has_intent_boost : Bool)
    (num_ambiguous_matches : ℕ) : ℚ :=
  let base_uncertainty : ℚ :=
    if 5 ≤ num_matches then 0.15
    else if 3 ≤ num_matches then 0.25
    else if 1 ≤ num_matches then 0.40
    else 0.70
  let intent_penalty : ℚ := if has_intent_boost then 0.0 else 0.15
  let ambiguity_penalty : ℚ := min ((num_ambiguous_matches : ℚ) * 0.10) 0.30
  round2 (min (base_uncertainty + intent_penalty + ambiguity_penalty) 1.0)

/-- `passes_dual_threshold` (skill_advisor.py lines 475-495). -/
def passes_dual_threshold (confidence uncertainty conf_threshold uncert_threshold : ℚ) : Bool :=
  decide (confidence ≥ conf_threshold) && decide (uncertainty ≤ uncert_threshold)

/-- The booster pairs a single token contributes (single-skill table
first, then the multi-skill table; both are checked independently,
skill_advisor.py lines 514-527). -/
def boostsOfToken (token : String) : List (String × ℚ) :=
  (match dictGet token INTENT_BOOSTERS with
   | some sb => [sb]
   | none => []) ++
  (match dictGet token MULTI_SKILL_BOOSTERS with
   | some l => l
   | none => [])

/-- `skill_boosts.get(name, 0)` after the intent-boost pass over
`all_tokens`: the sum of every booster contribution toward `name`. -/
def computeBoosts (all_tokens : List String) (name : String) : ℚ :=
  (all_tokens.flatMap boostsOfToken).foldl
    (fun acc p => if p.1 = name then acc + p.2 else acc) 0

/-- The provenance tags a single token contributes, with their target
skills (`!token` for single-skill hits, `!token(multi)` for multi-skill
hits). -/
def reasonsOfToken (token : String) : List (String × String) :=
  (match dictGet token INTENT_BOOSTERS with
   | some sb => [(sb.1, "!" ++ token)]
   | none => []) ++
  (match dictGet token MULTI_SKILL_BOOSTERS with
   | some l => l.map (fun p => (p.1, "!" ++ token ++ "(multi)"))
   | none => [])

/-- `boost_reasons.get(name, [])` after the intent-boost pass. -/
def computeReasons (all_tokens : List String) (name : String) : List String :=
  ((all_tokens.flatMap reasonsOfToken).filter (fun p => p.1 == name)).map (fun p => p.2)

/-- Whether a token adds at least one key to the `skill_boosts` dict
(used for the `not skill_boosts` emptiness test). -/
def boosterFires (t : String) : Bool :=
  (dictGet t INTENT_BOOSTERS).isSome ||
  (match dictGet t MULTI_SKILL_BOOSTERS with
   | some l => !l.isEmpty
   | none => false)

/-- `[t for t in all_tokens if t not in STOP_WORDS and len(t) > 2]`. -/
def filtered_tokens (all_tokens : List String) : List String :=
  all_tokens.filter (fun t => !(STOP_WORDS.contains t) && decide (2 < t.length))

/-- Order-preserving set insertion (first occurrence kept). -/
def insertUnique (l : List String) (x : String) : List String :=
  if x ∈ l then l else l ++ [x]

/-- Order-preserving deduplication: the Python `set` values used by the
program (search terms, corpus, `set(matches)`) are used only through
membership, existence and size, so any enumeration order is faithful. -/
def dedupKeepFirst (l : List String) : List String := l.foldl insertUnique []

def synonymsOf (token : String) : List String := (dictGet token SYNONYM_MAP).getD []

/-- `expand_query` (skill_advisor.py lines 362-368): the set of the
tokens themselves plus the direct synonyms of each token. -/
def expand_query (prompt_tokens : List String) : List String :=
  dedupKeepFirst (prompt_tokens ++ prompt_tokens.flatMap synonymsOf)

/-- `search_terms = expand_query(tokens) if tokens else []`. -/
def search_terms_of (all_tokens : List String) : List String :=
  let tokens := filtered_tokens all_tokens
  if tokens.isEmpty then [] else expand_query tokens

/-- `name.replace('-', ' ').split()`: hyphens become spaces, then split
on whitespace runs (empty pieces dropped, as Python `split()` does). -/
def name_parts_of (name : String) : List String :=
  splitRuns (fun c => !c.isWhitespace)
    (name.data.map (fun c => if c = '-' then ' ' else c)) []

/-- The skill's description corpus: tokenized description, as a set,
keeping only non-stop-words of length > 2. -/
def corpus_of (description : String) : List String :=
  (dedupKeepFirst (tokenize description)).filter
    (fun k => decide (2 < k.length) && !(STOP_WORDS.contains k))

/-- One iteration of the per-term scoring ladder (skill_advisor.py lines
549-561): name match 1.5, exact corpus match 1.0, else for terms of
length >= 4 a first bidirectional substring hit against a corpus word of
length >= 4 scores 0.5. -/
def scoreTerm (name_parts_filtered corpus : List String)
    (acc : ℚ × List String) (term : String) : ℚ × List String :=
  if name_parts_filtered.contains term then (acc.1 + 1.5, acc.2 ++ [term ++ "(name)"])
  else if corpus.contains term then (acc.1 + 1.0, acc.2 ++ [term])
  else if 4 ≤ term.length then
    match corpus.find? (fun w => decide (4 ≤ w.length) && (substrB term w || substrB w term)) with
    | some _ => (acc.1 + 0.5, acc.2 ++ [term ++ "~"])
    | none => acc
  else acc

/-- The fused score and match-provenance list for one skill: the
intent-boost total and tags, extended by the corpus-matching pass over
the search terms. -/
def scoreAndMatches (skill_boosts : String → ℚ) (boost_reasons : String → List String)
    (search_terms : List String) (name : String) (config : SkillConfig) : ℚ × List String :=
  let name_parts_filtered :=
    (name_parts_of name).filter (fun p => !(STOP_WORDS.contains p) && decide (2 < p.length))
  let corpus := corpus_of config.description
  search_terms.foldl (scoreTerm name_parts_filtered corpus) (skill_boosts name, boost_reasons name)

/-- The body of the per-skill loop of `analyze_request` (lines 539-588):
a recommendation is emitted iff the fused score is positive. -/
def recommendationFor (skill_boosts : String → ℚ) (boost_reasons : String → List String)
    (search_terms : List String) (name : String) (config : SkillConfig) : Option Recommendation :=
  let sm := scoreAndMatches skill_boosts boost_reasons search_terms name config
  if 0 < sm.1 then
    let has_boost := decide (0 < skill_boosts name)
    let confidence := calculate_confidence sm.1 has_boost config.weight
    let uncertainty := calculate_uncertainty sm.2.length has_boost
      ((sm.2.filter (fun m => substrB "(multi)" m)).length)
    some { skill := name
           confidence := round2 confidence
           uncertainty := uncertainty
           passes_threshold := passes_dual_threshold confidence uncertainty 0.8 0.35
           reason := "Matched: " ++ String.intercalate ", " ((dedupKeepFirst sm.2).take 5) }
  else none

/-- Descending confidence, the sort key of the final `sorted(...)`. -/
def confGE (a b : Recommendation) : Prop := b.confidence ≤ a.confidence

instance : DecidableRel confGE :=
  fun a b => inferInstanceAs (Decidable (b.confidence ≤ a.confidence))

/-- `analyze_request` (skill_advisor.py lines 502-590), parameterized by
the skill catalog that `get_skills()` loads from disk. -/
def analyze_request (skills : List (String × SkillConfig)) (prompt : String) :
    List Recommendation :=
  if prompt = "" then []
  else
    let all_tokens := tokenize prompt
    if (filtered_tokens all_tokens).isEmpty && !(all_tokens.any boosterFires) then []
    else
      List.insertionSort confGE
        (skills.filterMap (fun p =>
          recommendationFor (computeBoosts all_tokens) (computeReasons all_tokens)
            (search_terms_of all_tokens) p.1 p.2))

/-- Multi-skill-booster contribution of keyword `K` toward skill `S`
(zero when `K` has no multi-skill entry targeting `S`). -/
def multiBoostToward (K S : String) : ℚ :=
  (((dictGet K MULTI_SKILL_BOOSTERS).getD []).filter (fun p => p.1 == S)).foldl
    (fun a p => a + p.2) 0

/-- The single-skill catalog of the spec's acceptance example (weight
1.0, as `get_skills` always assigns). -/
def gitCatalog : List (String × SkillConfig) :=
  [("workflows-git",
    ⟨"Version control operations including commit, branch, and merge", 1.0⟩)]

lemma round2_nonneg {q : ℚ} (h : 0 ≤ q) : 0 ≤ round2 q := by
  unfold round2
  have h1 : (0:ℤ) ≤ round (q * 100) := by
    rw [round_eq, Int.le_floor]
    push_cast
    linarith
  have h2 : (0:ℚ) ≤ (round (q * 100) : ℚ) := by exact_mod_cast h1
  positivity

lemma round2_le_one {q : ℚ} (h : q ≤ 1) : round2 q ≤ 1 := by
  unfold round2
  have h1 : round (q * 100) ≤ (100:ℤ) := by
    rw [round_eq]
    have h2 : ⌊(q * 100 + 1/2 : ℚ)⌋ < 101 := Int.floor_lt.mpr (by push_cast; linarith)
    omega
  rw [div_le_one (by norm_num)]
  exact_mod_cast h1

lemma calculate_uncertainty_bounds (m : ℕ) (h : Bool) (a : ℕ) :
    0 ≤ calculate_uncertainty m h a ∧ calculate_uncertainty m h a ≤ 1 := by
  simp only [calculate_uncertainty]
  constructor
  · apply round2_nonneg
    have hb : 0 ≤ (if 5 ≤ m then (0.15:ℚ) else if 3 ≤ m then 0.25
        else if 1 ≤ m then 0.40 else 0.70) := by split_ifs <;> norm_num
    have hp : 0 ≤ (if h then (0.0:ℚ) else 0.15) := by split_ifs <;> norm_num
    have ha : 0 ≤ min ((a:ℚ) * 0.10) 0.30 :=
      le_min (mul_nonneg (Nat.cast_nonneg a) (by norm_num)) (by norm_num)
    exact le_min (by linarith) (by norm_num)
  · exact round2_le_one (le_trans (min_le_right _ _) (by norm_num))

lemma calculate_confidence_bounds (s : ℚ) (hb : Bool) (w : ℚ)
    (hs : 0 ≤ s) (hw : 0 ≤ w) :
    0 ≤ calculate_confidence s hb w ∧ calculate_confidence s hb w ≤ 1 := by
  simp only [calculate_confidence]
  have hc : 0 ≤ (if hb then min (0.50 + s * 0.15) 0.95
      else min (0.25 + s * 0.15) 0.95) := by
    have h015 : 0 ≤ s * 0.15 := mul_nonneg hs (by norm_num)
    split_ifs <;> exact le_min (by linarith) (by norm_num)
  exact ⟨le_min (mul_nonneg hc hw) (by norm_num),
    le_trans (min_le_right _ _) (by norm_num)⟩

lemma dictGet_mem {α : Type} {k : String} {v : α} :
    ∀ {l : List (String × α)}, dictGet k l = some v → (k, v) ∈ l := by
  intro l
  induction l with
  | nil => intro h; simp [dictGet] at h
  | cons p rest ih =>
    obtain ⟨k', v'⟩ := p
    intro h
    rw [dictGet] at h
    split at h
    · rename_i heq
      injection h with h'
      subst heq; subst h'
      exact List.mem_cons_self _ _
    · exact List.mem_cons_of_mem _ (ih h)

/-- C1: for every fused total score s > 0, intent-boost flag h and skill
weight w, the confidence is exactly
min(min((0.50 if h else 0.25) + s * 0.15, 0.95) * w, 1.0): the 0.50-base
curve when any intent boost was received, the 0.25-base curve otherwise,
capped at 0.95 before the weight multiplier and at 1.0 after it. -/
theorem confidence_two_regime_formula (s : ℚ) (h : Bool) (w : ℚ) (hs : 0 < s) :
    calculate_confidence s h w =
      min (min ((if h then (0.50:ℚ) else 0.25) + s * 0.15) 0.95 * w) 1.0 := by
  cases h <;> simp [calculate_confidence]

theorem confidence_two_regime_formula_witness :
    (0:ℚ) < 1 ∧ calculate_confidence 1 true 1 =
      min (min ((if true then (0.50:ℚ) else 0.25) + 1 * 0.15) 0.95 * 1) 1.0 :=
  ⟨by norm_num, confidence_two_regime_formula 1 true 1 (by norm_num)⟩

/-- C2: for every number of matches m, intent-boost flag h and number of
ambiguous matches a, the uncertainty equals
round(min(base(m) + (0 if h else 0.15) + min(a * 0.10, 0.30), 1.0), 2)
with base(m) = 0.15 for m >= 5, 0.25 for m >= 3, 0.40 for m >= 1 and 0.70
for m = 0, and the result always lies in [0, 1]. -/
theorem uncertainty_formula_and_range (m : ℕ) (h : Bool) (a : ℕ) :
    calculate_uncertainty m h a =
      round2 (min ((if 5 ≤ m then (0.15:ℚ) else if 3 ≤ m then 0.25
          else if 1 ≤ m then 0.40 else 0.70)
        + (if h then 0 else 0.15) + min ((a:ℚ) * 0.10) 0.30) 1)
    ∧ 0 ≤ calculate_uncertainty m h a ∧ calculate_uncertainty m h a ≤ 1 := by
  refine ⟨?_, calculate_uncertainty_bounds m h a⟩
  cases h <;> norm_num [calculate_uncertainty]

lemma INTENT_BOOSTERS_nonneg : ∀ p ∈ INTENT_BOOSTERS, 0 ≤ p.2.2 := by decide

lemma MULTI_SKILL_BOOSTERS_nonneg :
    ∀ p ∈ MULTI_SKILL_BOOSTERS, ∀ q ∈ p.2, 0 ≤ q.2 := by decide

lemma boostsOfToken_nonneg (t : String) : ∀ p ∈ boostsOfToken t, 0 ≤ p.2 := by
  intro p hp
  unfold boostsOfToken at hp
  rcases List.mem_append.mp hp with h | h
  · rcases hd : dictGet t INTENT_BOOSTERS with _ | sb
    · rw [hd] at h; simp at h
    · rw [hd] at h
      simp only [List.mem_singleton] at h
      subst h
      exact INTENT_BOOSTERS_nonneg (t, p) (dictGet_mem hd)
  · rcases hd : dictGet t MULTI_SKILL_BOOSTERS with _ | l
    · rw [hd] at h; simp at h
    · rw [hd] at h
      exact MULTI_SKILL_BOOSTERS_nonneg (t, l) (dictGet_mem hd) p h

lemma foldl_addIf_nonneg (name : String) :
    ∀ (l : List (String × ℚ)) (init : ℚ), 0 ≤ init → (∀ p ∈ l, 0 ≤ p.2) →
      0 ≤ l.foldl (fun acc p => if p.1 = name then acc + p.2 else acc) init := by
  intro l
  induction l with
  | nil => intro init h _; simpa using h
  | cons p rest ih =>
    intro init h hall
    rw [List.foldl_cons]
    apply ih
    · split_ifs
      · have := hall p (List.mem_cons_self _ _); linarith
      · exact h
    · intro q hq; exact hall q (List.mem_cons_of_mem _ hq)

lemma computeBoosts_nonneg (toks : List String) (name : String) :
    0 ≤ computeBoosts toks name := by
  unfold computeBoosts
  apply foldl_addIf_nonneg name _ 0 le_rfl
  intro p hp
  rcases List.mem_flatMap.mp hp with ⟨t, -, hpt⟩
  exact boostsOfToken_nonneg t p hpt

lemma scoreTerm_fst_le (np c : List String) (acc : ℚ × List String) (t : String) :
    acc.1 ≤ (scoreTerm np c acc t).1 := by
  unfold scoreTerm
  split_ifs
  · simp; linarith
  · simp; linarith
  · split
    · simp; linarith
    · exact le_rfl
  · exact le_rfl

lemma foldl_scoreTerm_fst_le (np c : List String) :
    ∀ (terms : List String) (acc : ℚ × List String),
      acc.1 ≤ (terms.foldl (scoreTerm np c) acc).1 := by
  intro terms
  induction terms with
  | nil => intro acc; exact le_rfl
  | cons t ts ih =>
    intro acc
    rw [List.foldl_cons]
    exact le_trans (scoreTerm_fst_le np c acc t) (ih _)

lemma le_scoreAndMatches_fst (sb : String → ℚ) (br : String → List String)
    (st : List String) (name : String) (config : SkillConfig) :
    sb name ≤ (scoreAndMatches sb br st name config).1 := by
  simp only [scoreAndMatches]
  exact foldl_scoreTerm_fst_le _ _ st (sb name, br name)

/-- Inversion of the per-skill loop body: a produced recommendation is
exactly the record the loop builds, and its fused score is positive. -/
lemma recommendationFor_some {sb : String → ℚ} {br : String → List String}
    {st : List String} {name : String} {config : SkillConfig} {rec : Recommendation}
    (h : recommendationFor sb br st name config = some rec) :
    0 < (scoreAndMatches sb br st name config).1 ∧
    rec = { skill := name
            confidence := round2 (calculate_confidence
              (scoreAndMatches sb br st name config).1
              (decide (0 < sb name)) config.weight)
            uncertainty := calculate_uncertainty
              (scoreAndMatches sb br st name config).2.length
              (decide (0 < sb name))
              (((scoreAndMatches sb br st name config).2.filter
                  (fun m => substrB "(multi)" m)).length)
            passes_threshold := passes_dual_threshold
              (calculate_confidence (scoreAndMatches sb br st name config).1
                (decide (0 < sb name)) config.weight)
              (calculate_uncertainty
                (scoreAndMatches sb br st name config).2.length
                (decide (0 < sb name))
                (((scoreAndMatches sb br st name config).2.filter
                    (fun m => substrB "(multi)" m)).length))
              0.8 0.35
            reason := "Matched: " ++ String.intercalate ", "
              ((dedupKeepFirst (scoreAndMatches sb br st name config).2).take 5) } := by
  simp only [recommendationFor] at h
  split_ifs at h with hpos
  exact ⟨hpos, (Option.some.injEq _ _ ▸ h).symm⟩

/-- Every member of the output list arises from the loop body at some
catalog entry. -/
lemma mem_analyze {skills : List (String × SkillConfig)} {prompt : String}
    {rec : Recommendation} (h : rec ∈ analyze_request skills prompt) :
    ∃ p ∈ skills,
      recommendationFor (computeBoosts (tokenize prompt))
        (computeReasons (tokenize prompt))
        (search_terms_of (tokenize prompt)) p.1 p.2 = some rec := by
  simp only [analyze_request] at h
  split_ifs at h
  · exact absurd h (List.not_mem_nil _)
  · exact absurd h (List.not_mem_nil _)
  · have h' := (List.Perm.mem_iff (List.perm_insertionSort _ _)).mp h
    exact List.mem_filterMap.mp h'

/-- C3: for every recommendation produced by the routing loop,
passes_threshold holds iff its (full-precision) confidence is at least
the default conf_threshold 0.8 and its uncertainty is at most the
default uncert_threshold 0.35; the stored confidence field is the
2-decimal rounding of that same confidence value. -/
theorem passes_threshold_iff_conf_and_unc
    (sb : String → ℚ) (br : String → List String) (st : List String)
    (name : String) (config : SkillConfig) (rec : Recommendation)
    (h : recommendationFor sb br st name config = some rec) :
    rec.passes_threshold = true ↔
      (0.8 ≤ calculate_confidence (scoreAndMatches sb br st name config).1
          (decide (0 < sb name)) config.weight
       ∧ rec.uncertainty ≤ 0.35) := by
  obtain ⟨-, hrec⟩ := recommendationFor_some h
  subst hrec
  simp [passes_dual_threshold, ge_iff_le]

theorem passes_threshold_iff_conf_and_unc_witness :
    ((⟨"s", 0.8, 0.4, false, "Matched: !git"⟩ : Recommendation).passes_threshold = true ↔
      (0.8 ≤ calculate_confidence
          (scoreAndMatches (fun _ => 2) (fun _ => ["!git"]) [] "s" ⟨"", 1⟩).1
          (decide (0 < (fun _ : String => (2:ℚ)) "s")) (⟨"", 1⟩ : SkillConfig).weight
       ∧ (⟨"s", 0.8, 0.4, false, "Matched: !git"⟩ : Recommendation).uncertainty ≤ 0.35)) :=
  passes_threshold_iff_conf_and_unc (fun _ => 2) (fun _ => ["!git"]) [] "s" ⟨"", 1⟩
    ⟨"s", 0.8, 0.4, false, "Matched: !git"⟩ (by decide)

/-- C5: for every request and every catalog (whose weights are
nonnegative, as the catalog contract requires), every confidence and
uncertainty value in the returned recommendation list lies in [0, 1]. -/
theorem output_confidence_uncertainty_in_unit_interval
    (skills : List (String × SkillConfig)) (prompt : String)
    (hw : ∀ p ∈ skills, 0 ≤ p.2.weight) :
    ∀ rec ∈ analyze_request skills prompt,
      0 ≤ rec.confidence ∧ rec.confidence ≤ 1 ∧
      0 ≤ rec.uncertainty ∧ rec.uncertainty ≤ 1 := by
  intro rec hrec
  obtain ⟨p, hp, he⟩ := mem_analyze hrec
  obtain ⟨hpos, hrec'⟩ := recommendationFor_some he
  have hs : (0:ℚ) ≤ (scoreAndMatches (computeBoosts (tokenize prompt))
      (computeReasons (tokenize prompt)) (search_terms_of (tokenize prompt))
      p.1 p.2).1 := le_of_lt hpos
  have hconf := calculate_confidence_bounds _ (decide (0 < computeBoosts (tokenize prompt) p.1))
    p.2.weight hs (hw p hp)
  have hunc := calculate_uncertainty_bounds
    (scoreAndMatches (computeBoosts (tokenize prompt))
      (computeReasons (tokenize prompt)) (search_terms_of (tokenize prompt)) p.1 p.2).2.length
    (decide (0 < computeBoosts (tokenize prompt) p.1))
    (((scoreAndMatches (computeBoosts (tokenize prompt))
        (computeReasons (tokenize prompt)) (search_terms_of (tokenize prompt)) p.1 p.2).2.filter
      (fun m => substrB "(multi)" m)).length)
  subst hrec'
  exact ⟨round2_nonneg hconf.1, round2_le_one hconf.2, hunc.1, hunc.2⟩

theorem output_confidence_uncertainty_in_unit_interval_witness :
    0 ≤ (⟨"workflows-git", 0.62, 0.4, false, "Matched: !pr"⟩ : Recommendation).confidence ∧
    (⟨"workflows-git", 0.62, 0.4, false, "Matched: !pr"⟩ : Recommendation).confidence ≤ 1 ∧
    0 ≤ (⟨"workflows-git", 0.62, 0.4, false, "Matched: !pr"⟩ : Recommendation).uncertainty ∧
    (⟨"workflows-git", 0.62, 0.4, false, "Matched: !pr"⟩ : Recommendation).uncertainty ≤ 1 :=
  output_confidence_uncertainty_in_unit_interval gitCatalog "pr" (by decide)
    ⟨"workflows-git", 0.62, 0.4, false, "Matched: !pr"⟩ (by decide)

/-- C6: for every request and catalog, the returned list is sorted by
non-increasing confidence: every earlier recommendation's confidence is
greater than or equal to every later one's. -/
theorem output_sorted_by_descending_confidence
    (skills : List (String × SkillConfig)) (prompt : String) :
    (analyze_request skills prompt).Pairwise
      (fun a b => b.confidence ≤ a.confidence) := by
  simp only [analyze_request]
  split_ifs
  · exact List.Pairwise.nil
  · exact List.Pairwise.nil
  · haveI : IsTotal Recommendation confGE := ⟨fun a b => le_total _ _⟩
    haveI : IsTrans Recommendation confGE := ⟨fun a b c h1 h2 => le_trans h2 h1⟩
    exact List.sorted_insertionSort confGE _

lemma recommendationFor_skill {sb : String → ℚ} {br : String → List String}
    {st : List String} {name : String} {config : SkillConfig} {rec : Recommendation}
    (h : recommendationFor sb br st name config = some rec) : rec.skill = name := by
  obtain ⟨-, hrec⟩ := recommendationFor_some h
  subst hrec
  rfl

lemma names_of_filterMap_sublist (sb : String → ℚ) (br : String → List String)
    (st : List String) :
    ∀ skills : List (String × SkillConfig),
      ((skills.filterMap (fun p => recommendationFor sb br st p.1 p.2)).map
          (fun r => r.skill)).Sublist (skills.map Prod.fst) := by
  intro skills
  induction skills with
  | nil => simp
  | cons p rest ih =>
    rw [List.filterMap_cons, List.map_cons]
    cases h : recommendationFor sb br st p.1 p.2 with
    | none => exact ih.cons p.1
    | some rec =>
      rw [List.map_cons, recommendationFor_skill h]
      exact ih.cons₂ p.1

/-- C10: for every request and catalog with unique skill names (Python
dicts key skills by name), every recommended skill name comes from the
catalog — booster entries targeting skills absent from the catalog
contribute nothing to the output — and no skill name appears twice. -/
theorem output_skills_unique_and_from_catalog
    (skills : List (String × SkillConfig)) (prompt : String)
    (hn : (skills.map Prod.fst).Nodup) :
    (∀ rec ∈ analyze_request skills prompt, rec.skill ∈ skills.map Prod.fst) ∧
    ((analyze_request skills prompt).map (fun r => r.skill)).Nodup := by
  constructor
  · intro rec hrec
    obtain ⟨p, hp, he⟩ := mem_analyze hrec
    rw [recommendationFor_skill he]
    exact List.mem_map.mpr ⟨p, hp, rfl⟩
  · simp only [analyze_request]
    split_ifs
    · simp
    · simp
    · have hperm := (List.perm_insertionSort confGE
        ((skills.filterMap (fun p =>
          recommendationFor (computeBoosts (tokenize prompt))
            (computeReasons (tokenize prompt))
            (search_terms_of (tokenize prompt)) p.1 p.2)))).map (fun r => r.skill)
      exact (List.Perm.nodup_iff hperm).mpr
        ((names_of_filterMap_sublist _ _ _ skills).nodup hn)

theorem output_skills_unique_and_from_catalog_witness :
    (∀ rec ∈ analyze_request gitCatalog "how do I commit my git changes",
       rec.skill ∈ gitCatalog.map Prod.fst) ∧
    ((analyze_request gitCatalog "how do I commit my git changes").map
        (fun r => r.skill)).Nodup :=
  output_skills_unique_and_from_catalog gitCatalog
    "how do I commit my git changes" (by decide)

/-- C4: for a catalog containing `workflows-git` with the spec's
description and weight 1.0, the query "how do I commit my git changes"
gives `workflows-git` intent boosts from `commit` (0.5), `git` (1.0) and
the multi-skill booster `changes` (0.4 toward workflows-git), so
has_intent_boost holds; the resulting recommendation has confidence
0.95 >= 0.80, uncertainty 0.25 <= 0.35 and passes_threshold true. -/
theorem git_commit_query_end_to_end :
    dictGet "commit" INTENT_BOOSTERS = some ("workflows-git", 0.5) ∧
    dictGet "git" INTENT_BOOSTERS = some ("workflows-git", 1.0) ∧
    dictGet "changes" MULTI_SKILL_BOOSTERS =
      some [("workflows-git", 0.4), ("system-spec-kit", 0.2)] ∧
    computeBoosts (tokenize "how do I commit my git changes") "workflows-git" =
      0.5 + 1.0 + 0.4 ∧
    0 < computeBoosts (tokenize "how do I commit my git changes") "workflows-git" ∧
    analyze_request gitCatalog "how do I commit my git changes" =
      [{ skill := "workflows-git", confidence := 0.95, uncertainty := 0.25,
         passes_threshold := true,
         reason := "Matched: !commit, !git, !changes(multi), commit, git(name)" }] ∧
    (0.8 : ℚ) ≤ 0.95 := by decide

/-- C9: the query "pr" loses every token to the length filter (the
expanded search-term set is empty), yet the 2-character intent booster
`pr` (boost 0.8 toward workflows-git) fires on the unfiltered stream and
yields a workflows-git recommendation with positive confidence 0.62. -/
theorem short_booster_token_routes_without_search_terms :
    filtered_tokens (tokenize "pr") = [] ∧
    search_terms_of (tokenize "pr") = [] ∧
    dictGet "pr" INTENT_BOOSTERS = some ("workflows-git", 0.8) ∧
    analyze_request gitCatalog "pr" =
      [{ skill := "workflows-git", confidence := 0.62, uncertainty := 0.4,
         passes_threshold := false, reason := "Matched: !pr" }] ∧
    (0 : ℚ) < 0.62 := by decide

/-- C7 fails as stated: `context` is a single-skill booster (0.6 toward
system-spec-kit) but is also a multi-skill booster toward the same
skill (0.4), so the request "context context" accumulates
skill_boost[system-spec-kit] = 2.0, not 2 * 0.6 = 1.2. -/
theorem repeated_booster_keyword_context_counterexample :
    dictGet "context" INTENT_BOOSTERS = some ("system-spec-kit", 0.6) ∧
    computeBoosts (tokenize "context context") "system-spec-kit" = 2 ∧
    ¬ computeBoosts (tokenize "context context") "system-spec-kit" = 2 * 0.6 := by
  decide

set_option maxRecDepth 8000 in
lemma intent_booster_double_all :
    ∀ p ∈ INTENT_BOOSTERS,
      computeBoosts (tokenize (p.1 ++ " " ++ p.1)) p.2.1 =
        2 * p.2.2 + 2 * multiBoostToward p.1 p.2.1 := by decide

/-- C7 (amended): for every keyword K in the single-skill booster table
with boost b toward skill S, the two-occurrence request "K K" accumulates
an intent boost of exactly 2*b + 2*c for S, where c is K's multi-skill
booster contribution toward S (c = 0 unless K also appears in the
multi-skill table targeting S, as `context`, `plan`, `session` and `mcp`
do); each token occurrence compounds the boost. -/
theorem repeated_booster_doubles_with_multi_contribution (K S : String) (b : ℚ)
    (h : dictGet K INTENT_BOOSTERS = some (S, b)) :
    computeBoosts (tokenize (K ++ " " ++ K)) S = 2 * b + 2 * multiBoostToward K S :=
  intent_booster_double_all (K, (S, b)) (dictGet_mem h)

theorem repeated_booster_doubles_with_multi_contribution_witness :
    dictGet "commit" INTENT_BOOSTERS = some ("workflows-git", 0.5) ∧
    computeBoosts (tokenize ("commit" ++ " " ++ "commit")) "workflows-git" =
      2 * 0.5 + 2 * multiBoostToward "commit" "workflows-git" :=
  ⟨by decide,
   repeated_booster_doubles_with_multi_contribution "commit" "workflows-git" 0.5
     (by decide)⟩

/-- C8 fails as stated: the query "version version" keeps the token
twice in the filtered stream, but `expand_query` collapses the search
terms to a set, so the exact corpus match contributes 1.0 to the skill's
score, not 2.0. -/
theorem duplicate_corpus_token_counted_once_counterexample :
    filtered_tokens (tokenize "version version") = ["version", "version"] ∧
    expand_query (filtered_tokens (tokenize "version version")) = ["version"] ∧
    (scoreAndMatches (fun _ => 0) (fun _ => [])
        (expand_query (filtered_tokens (tokenize "version version"))) "myskill"
        ⟨"version control", 1⟩).1 = 1 ∧
    ¬ (scoreAndMatches (fun _ => 0) (fun _ => [])
        (expand_query (filtered_tokens (tokenize "version version"))) "myskill"
        ⟨"version control", 1⟩).1 = 2 := by decide

lemma insertUnique_mem_self (l : List String) (x : String) : x ∈ insertUnique l x := by
  unfold insertUnique
  split_ifs with h
  · exact h
  · simp

lemma mem_insertUnique_of_mem {l : List String} {y : String} (x : String) (h : y ∈ l) :
    y ∈ insertUnique l x := by
  unfold insertUnique
  split_ifs
  · exact h
  · exact List.mem_append_left _ h

lemma insertUnique_of_mem {l : List String} {x : String} (h : x ∈ l) :
    insertUnique l x = l := by
  unfold insertUnique
  simp [h]

lemma mem_foldl_insertUnique_init {y : String} :
    ∀ (l acc : List String), y ∈ acc → y ∈ l.foldl insertUnique acc := by
  intro l
  induction l with
  | nil => intro acc h; exact h
  | cons a l ih =>
    intro acc h
    rw [List.foldl_cons]
    exact ih _ (mem_insertUnique_of_mem a h)

lemma mem_foldl_insertUnique_list {y : String} :
    ∀ (l acc : List String), y ∈ l → y ∈ l.foldl insertUnique acc := by
  intro l
  induction l with
  | nil => intro acc h; exact absurd h (List.not_mem_nil _)
  | cons a l ih =>
    intro acc h
    rw [List.foldl_cons]
    rcases List.mem_cons.mp h with rfl | h
    · exact mem_foldl_insertUnique_init _ _ (insertUnique_mem_self acc y)
    · exact ih _ h

lemma foldl_insertUnique_noop :
    ∀ (l acc : List String), (∀ x ∈ l, x ∈ acc) → l.foldl insertUnique acc = acc := by
  intro l
  induction l with
  | nil => intro acc _; rfl
  | cons a l ih =>
    intro acc h
    rw [List.foldl_cons, insertUnique_of_mem (h a (List.mem_cons_self _ _))]
    exact ih acc (fun x hx => h x (List.mem_cons_of_mem _ hx))

lemma expand_query_cons_dup (t : String) (xs : List String) :
    expand_query (t :: t :: xs) = expand_query (t :: xs) := by
  unfold expand_query dedupKeepFirst
  simp only [List.flatMap_cons, List.cons_append, List.foldl_cons, List.foldl_append]
  rw [insertUnique_of_mem (insertUnique_mem_self ([] : List String) t)]
  rw [foldl_insertUnique_noop (synonymsOf t)
    (List.foldl insertUnique
      (List.foldl insertUnique (insertUnique [] t) xs) (synonymsOf t))
    (fun x hx => mem_foldl_insertUnique_list _ _ hx)]

/-- C8 (amended): repeated occurrences of a filtered token are NOT
scored independently: `expand_query` collapses the search terms to a
set, so a token appearing twice yields exactly the same per-skill score
and match list as a single occurrence (an exact corpus match contributes
1.0, not 2.0). -/
theorem duplicated_token_scored_once (t : String) (xs : List String)
    (sb : String → ℚ) (br : String → List String) (name : String)
    (config : SkillConfig) :
    scoreAndMatches sb br (expand_query (t :: t :: xs)) name config =
      scoreAndMatches sb br (expand_query (t :: xs)) name config := by
  rw [expand_query_cons_dup]

end SkillAdvisor
